import Mathlib

set_option maxRecDepth 100000

/-!
Verification of the credential/session core of the `anki` sync server
(`rslib/src/sync/http_server/mod.rs` and `rslib/src/sync/user/database/mod.rs`).

The Rust code is shallowly embedded: the SQLite-backed user table becomes a
list of rows, the in-memory `HashMap<String, User>` session registry becomes an
association list, and filesystem/media side effects are recorded in an explicit
event log.  The hash functions used by the source (`md5::compute` for the
password verifier and `sha1_of_data` for session-key derivation) are
implemented bit-exactly over `Nat` so that every digest the theorems mention is
the digest the real program computes.
-/

/-! ## 32-bit helpers -/

def mask32 : Nat := 4294967295

def add32 (a b : Nat) : Nat := (a + b) % 4294967296

def not32 (a : Nat) : Nat := mask32 ^^^ a

def rotl32 (x n : Nat) : Nat := ((x <<< n) ||| (x >>> (32 - n))) &&& mask32

/-- Little-endian bytes of a 32-bit word. -/
def le4 (x : Nat) : List Nat :=
  [x &&& 255, (x >>> 8) &&& 255, (x >>> 16) &&& 255, (x >>> 24) &&& 255]

/-- Big-endian bytes of a 32-bit word. -/
def be4 (x : Nat) : List Nat :=
  [(x >>> 24) &&& 255, (x >>> 16) &&& 255, (x >>> 8) &&& 255, x &&& 255]

/-- Little-endian bytes of a 64-bit length field. -/
def le8 (x : Nat) : List Nat := le4 (x &&& mask32) ++ le4 (x >>> 32)

/-- Big-endian bytes of a 64-bit length field. -/
def be8 (x : Nat) : List Nat := be4 (x >>> 32) ++ be4 (x &&& mask32)

/-- 32-bit words from bytes, little-endian (MD5). -/
def wordsLE : List Nat → List Nat
  | b0 :: b1 :: b2 :: b3 :: rest =>
    (b0 ||| (b1 <<< 8) ||| (b2 <<< 16) ||| (b3 <<< 24)) :: wordsLE rest
  | _ => []

/-- 32-bit words from bytes, big-endian (SHA-1). -/
def wordsBE : List Nat → List Nat
  | b0 :: b1 :: b2 :: b3 :: rest =>
    ((b0 <<< 24) ||| (b1 <<< 16) ||| (b2 <<< 8) ||| b3) :: wordsBE rest
  | _ => []

/-- Split a byte list into 64-byte blocks (the fuel argument only bounds the
recursion; `chunks64` supplies enough for the whole list). -/
def chunks64Aux : Nat → List Nat → List (List Nat)
  | 0, _ => []
  | _, [] => []
  | fuel + 1, l => l.take 64 :: chunks64Aux fuel (l.drop 64)

/-- Split a byte list into 64-byte blocks. -/
def chunks64 (l : List Nat) : List (List Nat) := chunks64Aux l.length l

/-- Merkle–Damgård padding: `0x80`, zeros to 56 mod 64, then the bit length
encoded by `lenEnc` (little-endian for MD5, big-endian for SHA-1). -/
def padMessage (lenEnc : Nat → List Nat) (msg : List Nat) : List Nat :=
  msg ++ 128 :: List.replicate ((119 - msg.length % 64) % 64) 0
      ++ lenEnc (msg.length * 8)

/-! ## MD5 (the `md5` crate's `compute`, used for the password verifier) -/

def md5K : List Nat :=
  [0xd76aa478, 0xe8c7b756, 0x242070db, 0xc1bdceee,
   0xf57c0faf, 0x4787c62a, 0xa8304613, 0xfd469501,
   0x698098d8, 0x8b44f7af, 0xffff5bb1, 0x895cd7be,
   0x6b901122, 0xfd987193, 0xa679438e, 0x49b40821,
   0xf61e2562, 0xc040b340, 0x265e5a51, 0xe9b6c7aa,
   0xd62f105d, 0x02441453, 0xd8a1e681, 0xe7d3fbc8,
   0x21e1cde6, 0xc33707d6, 0xf4d50d87, 0x455a14ed,
   0xa9e3e905, 0xfcefa3f8, 0x676f02d9, 0x8d2a4c8a,
   0xfffa3942, 0x8771f681, 0x6d9d6122, 0xfde5380c,
   0xa4beea44, 0x4bdecfa9, 0xf6bb4b60, 0xbebfbc70,
   0x289b7ec6, 0xeaa127fa, 0xd4ef3085, 0x04881d05,
   0xd9d4d039, 0xe6db99e5, 0x1fa27cf8, 0xc4ac5665,
   0xf4292244, 0x432aff97, 0xab9423a7, 0xfc93a039,
   0x655b59c3, 0x8f0ccc92, 0xffeff47d, 0x85845dd1,
   0x6fa87e4f, 0xfe2ce6e0, 0xa3014314, 0x4e0811a1,
   0xf7537e82, 0xbd3af235, 0x2ad7d2bb, 0xeb86d391]

def md5S : List Nat :=
  [7, 12, 17, 22, 7, 12, 17, 22, 7, 12, 17, 22, 7, 12, 17, 22,
   5, 9, 14, 20, 5, 9, 14, 20, 5, 9, 14, 20, 5, 9, 14, 20,
   4, 11, 16, 23, 4, 11, 16, 23, 4, 11, 16, 23, 4, 11, 16, 23,
   6, 10, 15, 21, 6, 10, 15, 21, 6, 10, 15, 21, 6, 10, 15, 21]

def md5round (m : List Nat) (st : Nat × Nat × Nat × Nat) (i : Nat) :
    Nat × Nat × Nat × Nat :=
  let (a, b, c, d) := st
  let fg : Nat × Nat :=
    if i < 16 then ((b &&& c) ||| (not32 b &&& d), i)
    else if i < 32 then ((d &&& b) ||| (not32 d &&& c), (5 * i + 1) % 16)
    else if i < 48 then (b ^^^ c ^^^ d, (3 * i + 5) % 16)
    else (c ^^^ (b ||| not32 d), (7 * i) % 16)
  let f := (fg.1 + a + md5K.getD i 0 + m.getD fg.2 0) % 4294967296
  (d, add32 b (rotl32 f (md5S.getD i 0)), b, c)

def md5chunk (st : Nat × Nat × Nat × Nat) (chunk : List Nat) :
    Nat × Nat × Nat × Nat :=
  let m := wordsLE chunk
  let (a, b, c, d) := (List.range 64).foldl (md5round m) st
  let (a0, b0, c0, d0) := st
  (add32 a0 a, add32 b0 b, add32 c0 c, add32 d0 d)

/-- Serialize the final MD5 state, little-endian. -/
def md5out (st : Nat × Nat × Nat × Nat) : List Nat :=
  le4 st.1 ++ le4 st.2.1 ++ le4 st.2.2.1 ++ le4 st.2.2.2

/-- MD5 digest (16 bytes) of a byte string. -/
def md5bytes (msg : List Nat) : List Nat :=
  md5out ((chunks64 (padMessage le8 msg)).foldl md5chunk
    (0x67452301, 0xefcdab89, 0x98badcfe, 0x10325476))

/-! ## SHA-1 (`sha1_of_data` from `rslib/src/media/files.rs`) -/

def sha1words (chunk : List Nat) : List Nat :=
  (List.range 64).foldl
    (fun w _ =>
      w ++ [rotl32 ((w.getD (w.length - 3) 0) ^^^ (w.getD (w.length - 8) 0) ^^^
                    (w.getD (w.length - 14) 0) ^^^ (w.getD (w.length - 16) 0)) 1])
    (wordsBE chunk)

def sha1round (w : List Nat) (st : Nat × Nat × Nat × Nat × Nat) (i : Nat) :
    Nat × Nat × Nat × Nat × Nat :=
  let (a, b, c, d, e) := st
  let fk : Nat × Nat :=
    if i < 20 then ((b &&& c) ||| (not32 b &&& d), 0x5a827999)
    else if i < 40 then (b ^^^ c ^^^ d, 0x6ed9eba1)
    else if i < 60 then ((b &&& c) ||| (b &&& d) ||| (c &&& d), 0x8f1bbcdc)
    else (b ^^^ c ^^^ d, 0xca62c1d6)
  let temp := (rotl32 a 5 + fk.1 + e + fk.2 + w.getD i 0) % 4294967296
  (temp, a, rotl32 b 30, c, d)

def sha1chunk (st : Nat × Nat × Nat × Nat × Nat) (chunk : List Nat) :
    Nat × Nat × Nat × Nat × Nat :=
  let w := sha1words chunk
  let (a, b, c, d, e) := (List.range 80).foldl (sha1round w) st
  let (h0, h1, h2, h3, h4) := st
  (add32 h0 a, add32 h1 b, add32 h2 c, add32 h3 d, add32 h4 e)

/-- Serialize the final SHA-1 state, big-endian. -/
def sha1out (st : Nat × Nat × Nat × Nat × Nat) : List Nat :=
  be4 st.1 ++ be4 st.2.1 ++ be4 st.2.2.1 ++ be4 st.2.2.2.1 ++ be4 st.2.2.2.2

/-- SHA-1 digest (20 bytes) of a byte string; this embeds
`crate::media::files::sha1_of_data`. -/
def sha1_of_data (data : List Nat) : List Nat :=
  sha1out ((chunks64 (padMessage be8 data)).foldl sha1chunk
    (0x67452301, 0xefcdab89, 0x98badcfe, 0x10325476, 0xc3d2e1f0))

/-! ## Hex encoding and UTF-8 bytes of a string -/

def hexDigit (n : Nat) : Char :=
  if n < 10 then Char.ofNat (48 + n) else Char.ofNat (87 + n)

def hexByte (b : Nat) : List Char := [hexDigit (b / 16), hexDigit (b % 16)]

/-- Lowercase hex of a byte string (`hex::encode`; also how `format!("{:x}")`
renders an MD5 digest). -/
def hexEncode (bs : List Nat) : String :=
  String.mk (bs.foldr (fun b acc => hexByte b ++ acc) [])

/-- UTF-8 encoding of one character (Rust strings are UTF-8, and both hash
call sites consume `as_bytes()` of a `&str`). -/
def utf8Bytes (c : Char) : List Nat :=
  let n := c.toNat
  if n < 128 then [n]
  else if n < 2048 then [192 ||| (n >>> 6), 128 ||| (n &&& 63)]
  else if n < 65536 then
    [224 ||| (n >>> 12), 128 ||| ((n >>> 6) &&& 63), 128 ||| (n &&& 63)]
  else
    [240 ||| (n >>> 18), 128 ||| ((n >>> 12) &&& 63),
     128 ||| ((n >>> 6) &&& 63), 128 ||| (n &&& 63)]

def strBytes (s : String) : List Nat :=
  s.data.foldr (fun c acc => utf8Bytes c ++ acc) []

/-! ## Rust string primitives used by the handlers -/

/-- Rust's `char::is_whitespace`: the Unicode `White_Space` property. -/
def rustIsWhitespace (c : Char) : Bool :=
  let n := c.toNat
  (9 ≤ n && n ≤ 13) || n == 32 || n == 133 || n == 160 || n == 5760 ||
  (8192 ≤ n && n ≤ 8202) || n == 8232 || n == 8233 || n == 8239 || n == 8287 ||
  n == 12288

/-- Rust's `str::trim`: strip leading and trailing whitespace. -/
def rustTrim (s : String) : String :=
  String.mk (((s.data.dropWhile rustIsWhitespace).reverse.dropWhile
    rustIsWhitespace).reverse)

/-- Split a character list at every occurrence of `c` (the separator is
dropped; `n + 1` separators yield `n + 2` pieces). -/
def splitOnChar (c : Char) : List Char → List (List Char)
  | [] => [[]]
  | x :: xs =>
    let r := splitOnChar c xs
    if x = c then [] :: r
    else
      match r with
      | h :: t => (x :: h) :: t
      | [] => [[x]]

deriving instance DecidableEq for Except

/-! Standard test vectors, pinning the two digest functions to their RFC
behavior. -/

example : hexEncode (md5bytes (strBytes "")) = "d41d8cd98f00b204e9800998ecf8427e" := by decide

example : hexEncode (md5bytes (strBytes "abc")) = "900150983cd24fb0d6963f7d28e17f72" := by decide

example : hexEncode (sha1_of_data (strBytes "abc")) = "a9993e364706816aba3e25717850c26c9cd0d89d" := by decide

/-! ## The user database (`rslib/src/sync/user/database/mod.rs`) -/

/-- `calculate_md5`: `format!("{:x}", md5::compute(password))`. -/
def calculate_md5 (password : String) : String :=
  hexEncode (md5bytes (strBytes password))

/-- The `User` struct of the database module (imported into the server module
as `Account`). -/
structure Account where
  id : Nat
  email : String
  name : Option String
  password : Option String
deriving DecidableEq

/-- One persisted row of the `user` table.  `add_user` stores the MD5 hex
digest of the password, never the plaintext. -/
structure UserRow where
  id : Nat
  email : String
  name : Option String
  password_hash : Option String
deriving DecidableEq

/-- The rusqlite errors this module distinguishes.  `uniqueEmail` is the
`UNIQUE constraint failed: user.email` violation from `schema.sql`'s
uniqueness constraint on the email column; `other` stands for any other
storage failure, carrying its display message. -/
inductive DbError where
  | uniqueEmail : DbError
  | other : String → DbError
deriving DecidableEq

/-- The `Display` rendering of the storage error, as `source.to_string()`
observes it in `register_handler`. -/
def DbError.display : DbError → String
  | .uniqueEmail => "UNIQUE constraint failed: user.email"
  | .other msg => msg

/-- The contents of the SQLite `user` table behind `UserDatabase`'s
connection. -/
abbrev UserDatabase := List UserRow

/-- `User::from_row`: rebuilds an account from a queried row; the password
column is never echoed back. -/
def Account.from_row (row : UserRow) : Account :=
  { id := row.id, email := row.email, name := row.name, password := none }

/-- `UserDatabase::verify_user`.  Modelled from the spec for the missing
`verify_user.sql`: the query selects the first row matching both the email and
the MD5 digest of the supplied password; `QueryReturnedNoRows` is mapped to
`Ok(None)`, and only other storage failures remain errors (none arise in this
pure model). -/
def UserDatabase.verify_user (db : UserDatabase) (email password : String) :
    Except DbError (Option Account) :=
  let hashed_password := calculate_md5 password
  match db.find? (fun r => r.email == email && r.password_hash == some hashed_password) with
  | some row => .ok (some (Account.from_row row))
  | none => .ok none

/-- `UserDatabase::add_user`.  Modelled from the spec for the missing
`add_user.sql`/`schema.sql`: the insert persists (email, name, hashed
password) and the table enforces a uniqueness constraint on the email, whose
violation surfaces as the `uniqueEmail` error. -/
def UserDatabase.add_user (db : UserDatabase) (user : Account) :
    Except DbError UserDatabase :=
  let hashed_password := user.password.map calculate_md5
  if db.any (fun r => r.email == user.email) then
    .error .uniqueEmail
  else
    .ok (db ++ [{ id := db.length + 1, email := user.email, name := user.name,
                  password_hash := hashed_password }])

/-! ## The sync server core (`rslib/src/sync/http_server/mod.rs`) -/

/-- A snafu `Whatever` error: a context message wrapping an optional storage
error as its `source()`. -/
structure Whatever where
  context : String
  source : Option DbError
deriving DecidableEq

inductive HttpCode where
  | forbidden : HttpCode
  | internalServerError : HttpCode
deriving DecidableEq

/-- An HTTP-level error as produced by `or_forbidden` / `or_internal_err`. -/
structure HttpErr where
  code : HttpCode
  context : String
deriving DecidableEq

abbrev HttpResult (α : Type) := Except HttpErr α

/-- The live per-account session object (`http_server/user.rs`'s `User`).
The collection handle and sync state are opaque to this core, so they are
modelled by `Option Unit`; the media manager is identified by the folder it
was opened on. -/
structure User where
  name : String
  col : Option Unit
  sync_state : Option Unit
  media : String
  folder : String
deriving DecidableEq

/-- Filesystem / media side effects performed by `create_user`, recorded in
order: `create_dir_all` on a folder, and `ServerMediaManager::new` rooted at a
folder. -/
inductive FsEvent where
  | createDir : String → FsEvent
  | openMedia : String → FsEvent
deriving DecidableEq

/-- `SimpleServerInner`: the state behind the server's single `Mutex` — the
base folder, the hkey→user session registry (a `HashMap`, modelled as an
association list), and the user database.  The extra `events` field is the
log of filesystem/media side effects. -/
structure SimpleServerInner where
  base_folder : String
  users : List (String × User)
  user_db : UserDatabase
  events : List FsEvent
deriving DecidableEq

structure HostKeyRequest where
  username : String
  password : String
deriving DecidableEq

structure HostKeyResponse where
  key : String
deriving DecidableEq

structure RegisterRequest where
  email : String
  name : String
  password : String
deriving DecidableEq

structure RegisterResponse where
  status : Nat
  message : Option String
deriving DecidableEq

/-- The fields of `SyncRequest<I>` this core reads, plus the typed payload. -/
structure SyncRequest (I : Type) where
  sync_key : String
  session_key : String
  client_version : String
  data : I

/-- `derive_hkey`: lowercase hex of the SHA-1 of `user_and_pass`. -/
def derive_hkey (user_and_pass : String) : String :=
  hexEncode (sha1_of_data (strBytes user_and_pass))

/-- `SimpleServerInner::create_account`: delegates to `add_user`, wrapping
any storage error in a `Whatever` with context `create account`. -/
def SimpleServerInner.create_account (s : SimpleServerInner) (account : Account) :
    Except Whatever UserDatabase :=
  match s.user_db.add_user account with
  | .ok db => .ok db
  | .error e => .error { context := "create account", source := some e }

/-- `SimpleServerInner::load_account_if`: delegates to `verify_user`,
wrapping any storage error in a `Whatever` with context `verify user`. -/
def SimpleServerInner.load_account_if (s : SimpleServerInner) (name password : String) :
    Except Whatever (Option Account) :=
  match s.user_db.verify_user name password with
  | .ok v => .ok v
  | .error e => .error { context := "verify user", source := some e }

/-- `SimpleServerInner::is_user_exists`: key lookup in the session
registry. -/
def SimpleServerInner.is_user_exists (s : SimpleServerInner) (key : String) : Bool :=
  (s.users.lookup key).isSome

/-- `SimpleServerInner::create_user`: unconditionally runs `create_dir_all`
on the account's folder and opens a `ServerMediaManager` there (both recorded
as events — the `or_insert` argument is evaluated eagerly in Rust), then
inserts a fresh session object only if the key is not yet present.  In this
pure filesystem model neither side effect fails, so the result is always
`ok`. -/
def SimpleServerInner.create_user (s : SimpleServerInner) (name hkey : String) :
    Except Whatever SimpleServerInner :=
  let folder := s.base_folder ++ "/" ++ name
  let s' := { s with
              events := s.events ++ [FsEvent.createDir folder, FsEvent.openMedia folder] }
  let newUser : User :=
    { name := name, col := none, sync_state := none, media := folder, folder := folder }
  .ok { s' with users :=
          match s'.users.lookup hkey with
          | some _ => s'.users
          | none => s'.users ++ [(hkey, newUser)] }

/-- Replace the value stored under `k` in an association list (how the
`&mut User` handed to an operation writes back into the `HashMap`). -/
def updateAssoc (l : List (String × User)) (k : String) (v : User) :
    List (String × User) :=
  l.map (fun p => if p.1 = k then (k, v) else p)

/-- `SimpleServer::with_authenticated_user`: under the server mutex, looks up
the session for `req.sync_key`; absent keys fail with `invalid hkey`
(Forbidden) without running `op`; otherwise `op` gets mutable access to the
session object and its result is returned verbatim.  The tracing-span
recording and debug print have no observable effect on this state. -/
def SimpleServer.with_authenticated_user {I O : Type} (s : SimpleServerInner)
    (req : SyncRequest I) (op : User → SyncRequest I → HttpResult O × User) :
    HttpResult O × SimpleServerInner :=
  match s.users.lookup req.sync_key with
  | none => (.error { code := .forbidden, context := "invalid hkey" }, s)
  | some user =>
    let r := op user req
    (r.1, { s with users := updateAssoc s.users req.sync_key r.2 })

/-- `SimpleServer::get_host_key`: verifies the credentials, derives the
session key from `"{username}:{password}"`, lazily creates the session, and
returns the key; a non-matching login is Forbidden, storage or
session-creation failures are internal errors. -/
def SimpleServer.get_host_key (s : SimpleServerInner) (request : HostKeyRequest) :
    HttpResult HostKeyResponse × SimpleServerInner :=
  match s.load_account_if request.username request.password with
  | .ok (some _) =>
    let val := request.username ++ ":" ++ request.password
    let key := derive_hkey val
    if ¬ s.is_user_exists key then
      match s.create_user request.username key with
      | .ok s' => (.ok { key := key }, s')
      | .error _ => (.error { code := .internalServerError, context := "create user fail" }, s)
    else
      (.ok { key := key }, s)
  | .ok none => (.error { code := .forbidden, context := "invalid user/pass in get_host_key" }, s)
  | .error _ => (.error { code := .internalServerError, context := "load user fail" }, s)

/-- Modelled from the spec: the `validator` crate's `validate_email` is not
part of this repository; the spec only requires a syntactic check that
accepts ordinary addresses and rejects malformed ones such as
`"not-an-email"`.  Modelled as: exactly one `@` separating a non-empty local
part from a non-empty domain that contains a dot, with no spaces anywhere. -/
def validate_email (s : String) : Bool :=
  match splitOnChar '@' s.data with
  | [user, domain] =>
    !user.isEmpty && !domain.isEmpty && domain.contains '.' && !s.data.contains ' '
  | _ => false

/-- The `Err` arm of `register_handler`'s match on `create_account`: a
uniqueness violation (recognized by its `source()` display string) becomes
`400 account_exists`; anything else becomes `500` with the error's
message. -/
def register_error_response (e : Whatever) : Nat × RegisterResponse :=
  match e.source with
  | some src =>
    if src.display = "UNIQUE constraint failed: user.email" then
      (400, { status := 400, message := some "account_exists" })
    else
      (500, { status := 500, message := some e.context })
  | none => (500, { status := 500, message := some e.context })

/-- `register_handler`: trims the email, name and password; rejects an empty
(trimmed) password and then a malformed email with 400 responses before any
storage access; otherwise inserts the account (name stored as `None` when
empty after trimming) and discriminates the `create_account` outcome. -/
def register_handler (server : SimpleServerInner) (payload : RegisterRequest) :
    (Nat × RegisterResponse) × SimpleServerInner :=
  let email := rustTrim payload.email
  let name := rustTrim payload.name
  let password := rustTrim payload.password
  if password = "" then
    ((400, { status := 400, message := some "empty_password" }), server)
  else if ¬ validate_email email then
    ((400, { status := 400, message := some "bad_email" }), server)
  else
    let account : Account :=
      { id := 0, email := email,
        name := if name = "" then none else some name,
        password := some password }
    match server.create_account account with
    | .ok db => ((200, { status := 200, message := some "success" }),
                 { server with user_db := db })
    | .error e => (register_error_response e, server)


/-! ## Concrete fixtures used by the witnesses -/

/-- A freshly started server: empty session registry, empty user table. -/
def testServer : SimpleServerInner :=
  { base_folder := "/base", users := [], user_db := [], events := [] }

/-- A stored account row for `a@b.com` whose verifier is the digest of
`pw`. -/
def registeredRow : UserRow :=
  { id := 1, email := "a@b.com", name := none,
    password_hash := some (calculate_md5 "pw") }

/-- A server that already has `a@b.com` registered but no live session. -/
def loginServer : SimpleServerInner :=
  { base_folder := "/base", users := [], user_db := [registeredRow], events := [] }

/-- A live session object for `a@b.com`. -/
def sessionUser : User :=
  { name := "a@b.com", col := none, sync_state := none,
    media := "/base/a@b.com", folder := "/base/a@b.com" }

/-- A server with one established session under key `k1`. -/
def sessionServer : SimpleServerInner :=
  { base_folder := "/base", users := [("k1", sessionUser)],
    user_db := [registeredRow], events := [] }

/-! ## Helper lemmas -/

theorem hexEncode_cons (b : Nat) (bs : List Nat) :
    hexEncode (b :: bs) =
      String.mk (hexDigit (b / 16) :: hexDigit (b % 16) ::
        (bs.foldr (fun x acc => hexByte x ++ acc) [])) := rfl

/-- A derived session key is never the empty string (it is 40 hex
characters). -/
theorem derive_hkey_ne_empty (s : String) : derive_hkey s ≠ "" := by
  intro h
  have h' := congrArg String.data h
  simp only [derive_hkey, sha1_of_data, sha1out, be4, List.cons_append,
    hexEncode_cons] at h'
  simp at h'

/-- Freshness of an email, restated for the Bool-valued duplicate check in
`add_user`. -/
theorem any_email_eq_false {db : UserDatabase} {x : String}
    (h : ∀ r ∈ db, r.email ≠ x) :
    db.any (fun r => r.email == x) = false := by
  simp only [List.any_eq_false, beq_iff_eq]
  exact h

/-- Shape of a successful registration: status 200 and exactly one new row,
holding the trimmed email, the trimmed name (`none` when empty) and the MD5
digest of the trimmed password. -/
theorem register_success_eq (s : SimpleServerInner) (payload : RegisterRequest)
    (hp : rustTrim payload.password ≠ "")
    (hv : validate_email (rustTrim payload.email) = true)
    (hfresh : s.user_db.any (fun r => r.email == rustTrim payload.email) = false) :
    register_handler s payload =
      ((200, { status := 200, message := some "success" }),
       { s with user_db := s.user_db ++
           [{ id := s.user_db.length + 1,
              email := rustTrim payload.email,
              name := if rustTrim payload.name = "" then none
                      else some (rustTrim payload.name),
              password_hash := some (calculate_md5 (rustTrim payload.password)) }] }) := by
  simp [register_handler, SimpleServerInner.create_account, UserDatabase.add_user,
    hp, hv, hfresh]

/-! ## Claim theorems -/

/-- C2: `with_authenticated_user` with a session key absent from the registry
fails with Forbidden (`invalid hkey`), leaves the state untouched and never
invokes the supplied operation (the outcome is the same for any two
operations); with a key that is present, the result is exactly what the
operation returns on the resolved session object, which also receives the
operation's mutation. -/
theorem dispatch_authenticated_gate {I O : Type} (s : SimpleServerInner)
    (req : SyncRequest I) (op op2 : User → SyncRequest I → HttpResult O × User)
    (u : User) :
    (s.users.lookup req.sync_key = none →
      SimpleServer.with_authenticated_user s req op =
        (.error { code := .forbidden, context := "invalid hkey" }, s) ∧
      SimpleServer.with_authenticated_user s req op =
        SimpleServer.with_authenticated_user s req op2) ∧
    (s.users.lookup req.sync_key = some u →
      SimpleServer.with_authenticated_user s req op =
        ((op u req).1,
         { s with users := updateAssoc s.users req.sync_key (op u req).2 })) := by
  constructor
  · intro h
    constructor <;> simp [SimpleServer.with_authenticated_user, h]
  · intro h
    simp [SimpleServer.with_authenticated_user, h]

/-- Witness for C2 on a concrete server: key `missing` is rejected without
running the operation, key `k1` returns the operation's result. -/
theorem dispatch_authenticated_gate_witness :
    SimpleServer.with_authenticated_user sessionServer
      { sync_key := "missing", session_key := "s1", client_version := "v1", data := () }
      (fun u _ => ((.ok 7 : HttpResult Nat), u)) =
      (.error { code := .forbidden, context := "invalid hkey" }, sessionServer) ∧
    SimpleServer.with_authenticated_user sessionServer
      { sync_key := "k1", session_key := "s1", client_version := "v1", data := () }
      (fun u _ => ((.ok 7 : HttpResult Nat), u)) =
      ((.ok 7 : HttpResult Nat),
       { sessionServer with
           users := updateAssoc sessionServer.users "k1" sessionUser }) := by
  constructor
  · exact ((dispatch_authenticated_gate sessionServer
      { sync_key := "missing", session_key := "s1", client_version := "v1", data := () }
      (fun u _ => ((.ok 7 : HttpResult Nat), u))
      (fun u _ => ((.ok 7 : HttpResult Nat), u)) sessionUser).1 (by decide)).1
  · exact (dispatch_authenticated_gate sessionServer
      { sync_key := "k1", session_key := "s1", client_version := "v1", data := () }
      (fun u _ => ((.ok 7 : HttpResult Nat), u))
      (fun u _ => ((.ok 7 : HttpResult Nat), u)) sessionUser).2 (by decide)

/-- C3: when no stored row matches both the supplied name and the digest of
the supplied password (e.g. a correct account name with a wrong password),
`verify_user` reports success-with-empty rather than an error, and
`get_host_key` reports Forbidden — never Internal — leaving the state
unchanged. -/
theorem login_wrong_password_forbidden (s : SimpleServerInner)
    (req : HostKeyRequest)
    (hnomatch : ∀ r ∈ s.user_db,
      ¬(r.email = req.username ∧ r.password_hash = some (calculate_md5 req.password))) :
    UserDatabase.verify_user s.user_db req.username req.password = .ok none ∧
    SimpleServer.get_host_key s req =
      (.error { code := .forbidden, context := "invalid user/pass in get_host_key" }, s) := by
  have hfind : s.user_db.find?
      (fun r => r.email == req.username &&
        r.password_hash == some (calculate_md5 req.password)) = none := by
    rw [List.find?_eq_none]
    intro r hr
    simp only [Bool.and_eq_true, beq_iff_eq, not_and]
    intro h1 h2
    exact hnomatch r hr ⟨h1, h2⟩
  refine ⟨?_, ?_⟩
  · simp [UserDatabase.verify_user, hfind]
  · simp [SimpleServer.get_host_key, SimpleServerInner.load_account_if,
      UserDatabase.verify_user, hfind]

/-- Witness for C3: the registered account `a@b.com` with the wrong password
`wrong` is Forbidden, not Internal. -/
theorem login_wrong_password_forbidden_witness :
    UserDatabase.verify_user loginServer.user_db "a@b.com" "wrong" = .ok none ∧
    SimpleServer.get_host_key loginServer { username := "a@b.com", password := "wrong" } =
      (.error { code := .forbidden, context := "invalid user/pass in get_host_key" },
       loginServer) :=
  login_wrong_password_forbidden loginServer
    { username := "a@b.com", password := "wrong" } (by decide)

/-- C5: `register` rejects a password that trims to empty with
`empty_password`, and then a malformed email with `bad_email`, both as 400
responses that leave the server state — in particular the credential store —
exactly as it was; since the state `s` is universally quantified, the
response provably does not depend on the store either (no read occurs). -/
theorem register_validation_before_storage (s : SimpleServerInner)
    (payload : RegisterRequest) :
    (rustTrim payload.password = "" →
      register_handler s payload =
        ((400, { status := 400, message := some "empty_password" }), s)) ∧
    (rustTrim payload.password ≠ "" →
      validate_email (rustTrim payload.email) = false →
      register_handler s payload =
        ((400, { status := 400, message := some "bad_email" }), s)) := by
  constructor
  · intro h
    simp [register_handler, h]
  · intro h1 h2
    simp [register_handler, h1, h2]

/-- Witness for C5: password `""` gives `empty_password`, email
`not-an-email` gives `bad_email`, on a concrete server. -/
theorem register_validation_before_storage_witness :
    register_handler testServer { email := "a@b.com", name := "", password := "" } =
      ((400, { status := 400, message := some "empty_password" }), testServer) ∧
    register_handler testServer { email := "not-an-email", name := "", password := "pw" } =
      ((400, { status := 400, message := some "bad_email" }), testServer) :=
  ⟨(register_validation_before_storage testServer
      { email := "a@b.com", name := "", password := "" }).1 (by decide),
   (register_validation_before_storage testServer
      { email := "not-an-email", name := "", password := "pw" }).2
      (by decide) (by decide)⟩

/-- C4: with valid inputs and an email not yet in the store, the first
`register` succeeds and the second one with the same email (any password)
yields the distinguishable `account_exists` Conflict, leaving the state from
the first call untouched; any other storage failure message is instead
reported as a 500 Internal response carrying the error's message. -/
theorem register_twice_conflict (s : SimpleServerInner)
    (e n1 p1 n2 p2 c m : String)
    (hv : validate_email (rustTrim e) = true)
    (hp1 : rustTrim p1 ≠ "") (hp2 : rustTrim p2 ≠ "")
    (hfresh : ∀ r ∈ s.user_db, r.email ≠ rustTrim e)
    (hm : m ≠ "UNIQUE constraint failed: user.email") :
    (register_handler s { email := e, name := n1, password := p1 }).1 =
      (200, { status := 200, message := some "success" }) ∧
    register_handler (register_handler s { email := e, name := n1, password := p1 }).2
        { email := e, name := n2, password := p2 } =
      ((400, { status := 400, message := some "account_exists" }),
       (register_handler s { email := e, name := n1, password := p1 }).2) ∧
    register_error_response { context := c, source := some (DbError.other m) } =
      (500, { status := 500, message := some c }) := by
  have h1 := register_success_eq s { email := e, name := n1, password := p1 }
    hp1 hv (any_email_eq_false hfresh)
  refine ⟨by rw [h1], ?_, by simp [register_error_response, DbError.display, hm]⟩
  rw [h1]
  simp [register_handler, SimpleServerInner.create_account, UserDatabase.add_user,
    register_error_response, DbError.display, hp2, hv]

/-- Witness for C4 on a fresh server and the email `a@b.com`. -/
theorem register_twice_conflict_witness :
    (register_handler testServer { email := "a@b.com", name := "N", password := "pw" }).1 =
      (200, { status := 200, message := some "success" }) ∧
    register_handler
        (register_handler testServer { email := "a@b.com", name := "N", password := "pw" }).2
        { email := "a@b.com", name := "", password := "other" } =
      ((400, { status := 400, message := some "account_exists" }),
       (register_handler testServer { email := "a@b.com", name := "N", password := "pw" }).2) ∧
    register_error_response
        { context := "create account", source := some (DbError.other "disk I/O error") } =
      (500, { status := 500, message := some "create account" }) :=
  register_twice_conflict testServer "a@b.com" "N" "pw" "" "other"
    "create account" "disk I/O error"
    (by decide) (by decide) (by decide) (by decide) (by decide)

/-- Counterexample to C1 as stated: the password `pw ` is non-empty and the
email is valid, registration succeeds (the handler trims the password to `pw`
before hashing and storing it), yet the immediately following login with the
very same credentials hashes the untrimmed `pw ` and is Forbidden. -/
theorem register_login_roundtrip_counterexample :
    (register_handler testServer { email := "a@b.com", name := "", password := "pw " }).1 =
      (200, { status := 200, message := some "success" }) ∧
    (SimpleServer.get_host_key
        (register_handler testServer { email := "a@b.com", name := "", password := "pw " }).2
        { username := "a@b.com", password := "pw " }).1 =
      .error { code := .forbidden, context := "invalid user/pass in get_host_key" } := by
  exact ⟨by decide, by decide⟩

/-- C1 (amended): for every account registered with a non-empty password and
a syntactically valid email, neither carrying leading or trailing whitespace,
`register` followed immediately by `login` with the same credentials succeeds
and the login returns a non-empty session key. -/
theorem register_login_roundtrip (s : SimpleServerInner) (payload : RegisterRequest)
    (hp : rustTrim payload.password = payload.password)
    (hpne : payload.password ≠ "")
    (he : rustTrim payload.email = payload.email)
    (hv : validate_email payload.email = true)
    (hfresh : ∀ r ∈ s.user_db, r.email ≠ payload.email) :
    (register_handler s payload).1 = (200, { status := 200, message := some "success" }) ∧
    (SimpleServer.get_host_key (register_handler s payload).2
        { username := payload.email, password := payload.password }).1 =
      .ok { key := derive_hkey (payload.email ++ ":" ++ payload.password) } ∧
    derive_hkey (payload.email ++ ":" ++ payload.password) ≠ "" := by
  have h1 := register_success_eq s payload (by rw [hp]; exact hpne) (by rw [he]; exact hv)
    (any_email_eq_false (by rw [he]; exact hfresh))
  rw [hp, he] at h1
  have hnone : s.user_db.find?
      (fun r => r.email == payload.email &&
        r.password_hash == some (calculate_md5 payload.password)) = none := by
    rw [List.find?_eq_none]
    intro r hr
    simp only [Bool.and_eq_true, beq_iff_eq, not_and]
    intro hx _
    exact hfresh r hr hx
  refine ⟨by rw [h1], ?_, derive_hkey_ne_empty _⟩
  rw [h1]
  by_cases hex : SimpleServerInner.is_user_exists
      { s with user_db := s.user_db ++
          [{ id := s.user_db.length + 1, email := payload.email,
             name := if rustTrim payload.name = "" then none
                     else some (rustTrim payload.name),
             password_hash := some (calculate_md5 payload.password) }] }
      (derive_hkey (payload.email ++ ":" ++ payload.password)) = true <;>
    simp [SimpleServer.get_host_key, SimpleServerInner.load_account_if,
      UserDatabase.verify_user, SimpleServerInner.create_user, hnone, hex]

/-- Witness for the amended C1: registering `a@b.com` / `pw` on a fresh
server and logging in with the same credentials yields the derived key. -/
theorem register_login_roundtrip_witness :
    (register_handler testServer { email := "a@b.com", name := "", password := "pw" }).1 =
      (200, { status := 200, message := some "success" }) ∧
    (SimpleServer.get_host_key
        (register_handler testServer { email := "a@b.com", name := "", password := "pw" }).2
        { username := "a@b.com", password := "pw" }).1 =
      .ok { key := derive_hkey ("a@b.com" ++ ":" ++ "pw") } ∧
    derive_hkey ("a@b.com" ++ ":" ++ "pw") ≠ "" :=
  register_login_roundtrip testServer { email := "a@b.com", name := "", password := "pw" }
    (by decide) (by decide) (by decide) (by decide) (by decide)

/-- C6: whenever two `get_host_key` calls with the same credentials succeed —
from any two server states, in any order — they return the same session key,
namely the SHA-1 derivation of `"{username}:{password}"`: the key is a
function of the credentials alone. -/
theorem session_key_deterministic (s1 s2 : SimpleServerInner)
    (req : HostKeyRequest) (r1 r2 : HostKeyResponse)
    (h1 : (SimpleServer.get_host_key s1 req).1 = .ok r1)
    (h2 : (SimpleServer.get_host_key s2 req).1 = .ok r2) :
    r1 = r2 ∧ r1.key = derive_hkey (req.username ++ ":" ++ req.password) := by
  have key_of : ∀ (s : SimpleServerInner) (r : HostKeyResponse),
      (SimpleServer.get_host_key s req).1 = .ok r →
      r = { key := derive_hkey (req.username ++ ":" ++ req.password) } := by
    intro s r h
    rcases hload : SimpleServerInner.load_account_if s req.username req.password with e | v
    · simp [SimpleServer.get_host_key, hload] at h
    · rcases v with _ | a
      · simp [SimpleServer.get_host_key, hload] at h
      · by_cases hex : SimpleServerInner.is_user_exists s
            (derive_hkey (req.username ++ ":" ++ req.password)) = true <;>
          simp [SimpleServer.get_host_key, hload, SimpleServerInner.create_user,
            hex] at h <;>
          exact h.symm
  have e1 := key_of s1 r1 h1
  have e2 := key_of s2 r2 h2
  rw [e1, e2]
  exact ⟨rfl, rfl⟩

/-- Witness for C6: logins from two different server states (one with no
session, one with an unrelated established session) return the identical
derived key. -/
theorem session_key_deterministic_witness :
    ({ key := derive_hkey ("a@b.com" ++ ":" ++ "pw") } : HostKeyResponse) =
      { key := derive_hkey ("a@b.com" ++ ":" ++ "pw") } ∧
    ({ key := derive_hkey ("a@b.com" ++ ":" ++ "pw") } : HostKeyResponse).key =
      derive_hkey ("a@b.com" ++ ":" ++ "pw") :=
  session_key_deterministic loginServer sessionServer
    { username := "a@b.com", password := "pw" }
    { key := derive_hkey ("a@b.com" ++ ":" ++ "pw") }
    { key := derive_hkey ("a@b.com" ++ ":" ++ "pw") }
    (by decide) (by decide)

/-- C7: session creation through login is idempotent.  If a successful
`get_host_key` ran from state `s` and produced state `s2`, then (i) running
it again from `s2` returns the same key and leaves `s2` exactly as it is —
in particular no folder-creation and no media-open event is appended, so a
second login with the same credentials does not recreate the account's
folder or reopen its media handle; (ii) if a session for the key already
existed the whole state was left untouched; (iii) otherwise exactly one
folder was allocated, one media handle opened, and a session object with no
open collection and no in-progress sync state inserted under the key. -/
theorem create_session_idempotent (s s2 : SimpleServerInner)
    (req : HostKeyRequest) (resp : HostKeyResponse)
    (h : SimpleServer.get_host_key s req = (.ok resp, s2)) :
    SimpleServer.get_host_key s2 req = (.ok resp, s2) ∧
    (SimpleServerInner.is_user_exists s resp.key = true → s2 = s) ∧
    (SimpleServerInner.is_user_exists s resp.key = false →
      s2 = { s with
        users := s.users ++ [(resp.key,
          { name := req.username, col := none, sync_state := none,
            media := s.base_folder ++ "/" ++ req.username,
            folder := s.base_folder ++ "/" ++ req.username })],
        events := s.events ++
          [FsEvent.createDir (s.base_folder ++ "/" ++ req.username),
           FsEvent.openMedia (s.base_folder ++ "/" ++ req.username)] }) := by
  rcases hver : UserDatabase.verify_user s.user_db req.username req.password with e | v
  · simp [SimpleServer.get_host_key, SimpleServerInner.load_account_if, hver] at h
  · rcases v with _ | a
    · simp [SimpleServer.get_host_key, SimpleServerInner.load_account_if, hver] at h
    · by_cases hex : SimpleServerInner.is_user_exists s
          (derive_hkey (req.username ++ ":" ++ req.password)) = true
      · have hG : SimpleServer.get_host_key s req =
            (.ok ({ key := derive_hkey (req.username ++ ":" ++ req.password) } :
              HostKeyResponse), s) := by
          simp [SimpleServer.get_host_key, SimpleServerInner.load_account_if,
            hver, hex]
        rw [hG] at h
        injection h with h1 h2
        injection h1 with h1
        subst h1
        subst h2
        refine ⟨hG, fun _ => rfl, fun hf => ?_⟩
        rw [hex] at hf
        cases hf
      · have hexf : SimpleServerInner.is_user_exists s
            (derive_hkey (req.username ++ ":" ++ req.password)) = false := by
          simpa using hex
        have hl : s.users.lookup (derive_hkey (req.username ++ ":" ++ req.password)) = none := by
          cases hcase : s.users.lookup (derive_hkey (req.username ++ ":" ++ req.password)) with
          | none => rfl
          | some u =>
            simp [SimpleServerInner.is_user_exists, hcase] at hexf
        have hG : SimpleServer.get_host_key s req =
            (.ok ({ key := derive_hkey (req.username ++ ":" ++ req.password) } :
              HostKeyResponse),
             { s with
               users := s.users ++ [(derive_hkey (req.username ++ ":" ++ req.password),
                 { name := req.username, col := none, sync_state := none,
                   media := s.base_folder ++ "/" ++ req.username,
                   folder := s.base_folder ++ "/" ++ req.username })],
               events := s.events ++
                 [FsEvent.createDir (s.base_folder ++ "/" ++ req.username),
                  FsEvent.openMedia (s.base_folder ++ "/" ++ req.username)] }) := by
          simp [SimpleServer.get_host_key, SimpleServerInner.load_account_if,
            hver, hexf, SimpleServerInner.create_user, hl]
        rw [hG] at h
        injection h with h1 h2
        injection h1 with h1
        subst h1
        subst h2
        refine ⟨?_, fun ht => ?_, fun _ => rfl⟩
        · simp [SimpleServer.get_host_key, SimpleServerInner.load_account_if,
            hver, SimpleServerInner.is_user_exists, List.lookup_append, hl]
        · rw [hexf] at ht
          cases ht

/-- The state after the first successful login of `a@b.com` on
`loginServer`. -/
def loginServer2 : SimpleServerInner :=
  (SimpleServer.get_host_key loginServer { username := "a@b.com", password := "pw" }).2

/-- Witness for C7: after the first login of `a@b.com`, a second identical
login returns the same key and leaves the state — folder events included —
exactly as it was. -/
theorem create_session_idempotent_witness :
    SimpleServer.get_host_key loginServer2 { username := "a@b.com", password := "pw" } =
      (.ok { key := derive_hkey ("a@b.com" ++ ":" ++ "pw") }, loginServer2) ∧
    (SimpleServerInner.is_user_exists loginServer
        (derive_hkey ("a@b.com" ++ ":" ++ "pw")) = true → loginServer2 = loginServer) ∧
    (SimpleServerInner.is_user_exists loginServer
        (derive_hkey ("a@b.com" ++ ":" ++ "pw")) = false →
      loginServer2 = { loginServer with
        users := loginServer.users ++ [(derive_hkey ("a@b.com" ++ ":" ++ "pw"),
          { name := "a@b.com", col := none, sync_state := none,
            media := loginServer.base_folder ++ "/" ++ "a@b.com",
            folder := loginServer.base_folder ++ "/" ++ "a@b.com" })],
        events := loginServer.events ++
          [FsEvent.createDir (loginServer.base_folder ++ "/" ++ "a@b.com"),
           FsEvent.openMedia (loginServer.base_folder ++ "/" ++ "a@b.com")] }) :=
  create_session_idempotent loginServer loginServer2
    { username := "a@b.com", password := "pw" }
    { key := derive_hkey ("a@b.com" ++ ":" ++ "pw") }
    (by decide)

/-- C8: the stored password verifier is the one-way digest of the plaintext
password, and verification compares digests by exact equality:
`add_user` persists exactly the MD5 digest of the password, and
`verify_user` on the new table succeeds precisely when the digest of the
supplied password equals the stored one. -/
theorem password_digest_roundtrip (db : UserDatabase) (acc : Account)
    (p p2 : String) (db2 : UserDatabase)
    (hpw : acc.password = some p)
    (hfresh : ∀ r ∈ db, r.email ≠ acc.email)
    (hadd : UserDatabase.add_user db acc = .ok db2) :
    db2 = db ++ [{ id := db.length + 1, email := acc.email, name := acc.name,
                   password_hash := some (calculate_md5 p) }] ∧
    (UserDatabase.verify_user db2 acc.email p2 =
        .ok (some { id := db.length + 1, email := acc.email, name := acc.name,
                    password := none }) ↔
      calculate_md5 p2 = calculate_md5 p) := by
  have hany := any_email_eq_false hfresh
  simp only [UserDatabase.add_user, hany, hpw, Option.map_some', Bool.false_eq_true,
    if_false, ite_false, Except.ok.injEq] at hadd
  subst hadd
  have hnone : ∀ x : String, db.find?
      (fun r => r.email == acc.email && r.password_hash == some x) = none := by
    intro x
    rw [List.find?_eq_none]
    intro r hr
    simp only [Bool.and_eq_true, beq_iff_eq, not_and]
    intro hx _
    exact hfresh r hr hx
  refine ⟨rfl, ?_⟩
  by_cases hmd : calculate_md5 p2 = calculate_md5 p
  · constructor
    · intro _
      exact hmd
    · intro _
      simp [UserDatabase.verify_user, List.find?_append, hnone, Account.from_row, hmd]
  · constructor
    · intro hv2
      simp [UserDatabase.verify_user, List.find?_append, hnone, hmd, Ne.symm hmd] at hv2
    · intro hq
      exact absurd hq hmd

/-- Witness for C8 on an empty table and the account `a@b.com` / `pw`. -/
theorem password_digest_roundtrip_witness :
    [{ id := 1, email := "a@b.com", name := some "N",
       password_hash := some (calculate_md5 "pw") }] =
      ([] : UserDatabase) ++
        [{ id := ([] : UserDatabase).length + 1, email := "a@b.com",
           name := some "N", password_hash := some (calculate_md5 "pw") }] ∧
    (UserDatabase.verify_user
        [{ id := 1, email := "a@b.com", name := some "N",
           password_hash := some (calculate_md5 "pw") }] "a@b.com" "pw" =
        .ok (some { id := ([] : UserDatabase).length + 1, email := "a@b.com",
                    name := some "N", password := none }) ↔
      calculate_md5 "pw" = calculate_md5 "pw") :=
  password_digest_roundtrip []
    { id := 0, email := "a@b.com", name := some "N", password := some "pw" }
    "pw" "pw"
    [{ id := 1, email := "a@b.com", name := some "N",
       password_hash := some (calculate_md5 "pw") }]
    (by decide) (by decide) (by decide)

/-- C10: `register` trims its inputs before validating and storing them.  A
password consisting solely of whitespace is rejected as `empty_password`; on
success the persisted row carries the trimmed email, the MD5 digest of the
trimmed password, and the trimmed display name — stored as `none` when it
trims to empty rather than as an empty string. -/
theorem register_trims_inputs (s : SimpleServerInner) (payload q : RegisterRequest)
    (hq : ∀ c ∈ q.password.data, rustIsWhitespace c = true)
    (hp : rustTrim payload.password ≠ "")
    (hv : validate_email (rustTrim payload.email) = true)
    (hfresh : ∀ r ∈ s.user_db, r.email ≠ rustTrim payload.email) :
    register_handler s q = ((400, { status := 400, message := some "empty_password" }), s) ∧
    register_handler s payload =
      ((200, { status := 200, message := some "success" }),
       { s with user_db := s.user_db ++
           [{ id := s.user_db.length + 1,
              email := rustTrim payload.email,
              name := if rustTrim payload.name = "" then none
                      else some (rustTrim payload.name),
              password_hash := some (calculate_md5 (rustTrim payload.password)) }] }) := by
  constructor
  · have h1 : q.password.data.dropWhile rustIsWhitespace = [] :=
      List.dropWhile_eq_nil_iff.mpr hq
    have hq0 : rustTrim q.password = "" := by
      simp [rustTrim, h1]
    simp [register_handler, hq0]
  · exact register_success_eq s payload hp hv (any_email_eq_false hfresh)

/-- Witness for C10: a two-space password is rejected, and registering
` a@b.com ` / ` N ` / ` pw ` persists the trimmed values. -/
theorem register_trims_inputs_witness :
    register_handler testServer { email := "a@b.com", name := "", password := "  " } =
      ((400, { status := 400, message := some "empty_password" }), testServer) ∧
    register_handler testServer { email := " a@b.com ", name := " N ", password := " pw " } =
      ((200, { status := 200, message := some "success" }),
       { testServer with user_db := testServer.user_db ++
           [{ id := testServer.user_db.length + 1,
              email := rustTrim " a@b.com ",
              name := if rustTrim " N " = "" then none else some (rustTrim " N "),
              password_hash := some (calculate_md5 (rustTrim " pw ")) }] }) :=
  register_trims_inputs testServer
    { email := " a@b.com ", name := " N ", password := " pw " }
    { email := "a@b.com", name := "", password := "  " }
    (by decide) (by decide) (by decide) (by decide)
